import Mathlib

/-!
Shallow embedding of `src/s2cloudless.py` (the s2cloudless masking pipeline).

Images are finite rasters: each band is a `h × w` grid of rational pixel
values together with a per-pixel validity mask, and an image is a list of
named bands plus the metadata the pipeline reads (`system:index`,
`MEAN_SOLAR_AZIMUTH_ANGLE`, `CLOUDY_PIXEL_PERCENTAGE`) and the optional
`s2cloudless` property written by the join.

Earth Engine primitives that the source calls are embedded as follows:
per-pixel arithmetic/comparison ops (`gt`, `lt`, `neq`, `add`, `multiply`,
`Not`, `mask`, `updateMask`) are modelled pointwise from their documented
semantics; `focalMin`/`focalMax` are min/max filters over a circular
neighbourhood of the given radius at the fixed working grid; `reproject`
is the identity at that fixed grid (the embedding works at a single scale);
`directionalDistanceTransform` is a black-box raster-engine primitive and is
passed in as an explicit function parameter `ddt`; `ee.Join.saveFirst`
follows its documented non-outer semantics (each primary element is paired
with its first match, primaries without a match are dropped from the
result). Fallible lookups return `Option`; Python exceptions are an
`Except` error channel.
-/

namespace S2Cloudless

/-- A single raster band: per-pixel rational values and a validity mask. -/
structure BandData (h w : Nat) where
  value : Fin h → Fin w → ℚ
  valid : Fin h → Fin w → Bool

/-- An `ee.Image` as the pipeline sees it: named bands plus the metadata the
source reads. `s2cloudless` is the property saved by the join (the matched
companion image's bands), absent before joining. -/
structure Image (h w : Nat) where
  index : String
  meanSolarAzimuth : ℚ
  cloudyPixelPercentage : ℚ
  bands : List (String × BandData h w)
  s2cloudless : Option (List (String × BandData h w))

variable {h w : Nat}

namespace BandData

/-- Pointwise `ee.Image.gt` against a constant: 1 where value > t, else 0. -/
def gt (b : BandData h w) (t : ℚ) : BandData h w :=
  ⟨fun i j => if t < b.value i j then 1 else 0, b.valid⟩

/-- Pointwise `ee.Image.lt` against a constant: 1 where value < t, else 0. -/
def lt (b : BandData h w) (t : ℚ) : BandData h w :=
  ⟨fun i j => if b.value i j < t then 1 else 0, b.valid⟩

/-- Pointwise `ee.Image.neq` against a constant: 1 where value ≠ t, else 0. -/
def neq (b : BandData h w) (t : ℚ) : BandData h w :=
  ⟨fun i j => if b.value i j = t then 0 else 1, b.valid⟩

/-- Pointwise `ee.Image.add`: sum of values, intersection of masks. -/
def add (a b : BandData h w) : BandData h w :=
  ⟨fun i j => a.value i j + b.value i j, fun i j => a.valid i j && b.valid i j⟩

/-- Pointwise `ee.Image.multiply`: product of values, intersection of masks. -/
def multiply (a b : BandData h w) : BandData h w :=
  ⟨fun i j => a.value i j * b.value i j, fun i j => a.valid i j && b.valid i j⟩

/-- Pointwise `ee.Image.Not`: 1 where the value is zero, else 0. -/
def bNot (b : BandData h w) : BandData h w :=
  ⟨fun i j => if b.value i j = 0 then 1 else 0, b.valid⟩

/-- The `ee.Image.mask()` accessor: the validity mask as a 0/1 band,
itself everywhere valid. -/
def mask (b : BandData h w) : BandData h w :=
  ⟨fun i j => if b.valid i j then 1 else 0, fun _ _ => true⟩

/-- Pointwise `ee.Image.updateMask`: a pixel stays valid only where it was
valid and the mask band is valid and nonzero; values are untouched. -/
def updateMask (b m : BandData h w) : BandData h w :=
  ⟨b.value, fun i j => b.valid i j && (m.valid i j && decide (m.value i j ≠ 0))⟩

end BandData

/-- First band with the given name, as `ee.Image.select` of one band name. -/
def lookupBand (bands : List (String × BandData h w)) (n : String) :
    Option (BandData h w) :=
  (bands.find? (fun nb => nb.1 == n)).map (fun nb => nb.2)

/-- The band-name pattern `B.*` used by `img.select` in the source: a name
matches when its first character is `B`. -/
def bandPatternB (n : String) : Bool :=
  match n.data with
  | [] => false
  | c :: _ => c == 'B'

/-- The `ee.Image.addBands` call: append the new named bands. -/
def Image.addBands (img : Image h w) (new : List (String × BandData h w)) :
    Image h w :=
  { img with bands := img.bands ++ new }

/-- The circular focal neighbourhood of radius `r` around pixel `p`, at the
fixed working grid: all in-bounds pixels at Euclidean distance at most `r`. -/
def nbhd (r : ℚ) (p : Fin h × Fin w) : Finset (Fin h × Fin w) :=
  Finset.univ.filter (fun q =>
    (((((q.1 : ℤ) - (p.1 : ℤ)) ^ 2 + (((q.2 : ℤ) - (p.2 : ℤ)) ^ 2) : ℤ) : ℚ)
      ≤ r ^ 2))

theorem self_mem_nbhd (r : ℚ) (p : Fin h × Fin w) : p ∈ nbhd r p := by
  simp only [nbhd, Finset.mem_filter, Finset.mem_univ, true_and, sub_self]
  push_cast
  simpa using sq_nonneg r

/-- `ee.Image.focalMin`: per pixel, the minimum value over the circular
neighbourhood of radius `r` (which always contains the pixel itself). -/
def focalMin (r : ℚ) (b : BandData h w) : BandData h w :=
  ⟨fun i j =>
    ((nbhd r (i, j)).image (fun q => b.value q.1 q.2)).min'
      (Finset.Nonempty.image ⟨(i, j), self_mem_nbhd r (i, j)⟩ _),
   b.valid⟩

/-- `ee.Image.focalMax`: per pixel, the maximum value over the circular
neighbourhood of radius `r`. -/
def focalMax (r : ℚ) (b : BandData h w) : BandData h w :=
  ⟨fun i j =>
    ((nbhd r (i, j)).image (fun q => b.value q.1 q.2)).max'
      (Finset.Nonempty.image ⟨(i, j), self_mem_nbhd r (i, j)⟩ _),
   b.valid⟩

/-- `S2CloudCollection._join`, i.e. `ee.Join.saveFirst` applied with an
equality condition on `system:index` (non-outer, per its documented
semantics): each primary image is paired with the first secondary image
sharing its index, saved under the `s2cloudless` property; a primary image
with no match is dropped from the result. -/
def saveFirst (primary secondary : List (Image h w)) : List (Image h w) :=
  primary.filterMap (fun p =>
    (secondary.find? (fun s => s.index == p.index)).map
      (fun s => { p with s2cloudless := some s.bands }))

/-- The error universe of a pipeline run. `typeError` is a Python
`TypeError`; `eeError` stands for a failed Earth Engine operation (a missing
band or property); `invalidParameter` is the configuration-validation
condition named by the specification — it is part of the universe so that
validation claims can be stated, and the source never constructs it. -/
inductive PyError where
  | typeError (msg : String)
  | invalidParameter
  | eeError
  deriving DecidableEq

/-- Lift a fallible Earth Engine computation into the run's error channel. -/
def exceptOfOption {α : Type} (o : Option α) : Except PyError α :=
  match o with
  | none => Except.error PyError.eeError
  | some a => Except.ok a

/-- Map a per-image stage over the builder's collection, as
`self.col = self.col.map(wrapper)` does. -/
def stageMap (f : Image h w → Option (Image h w)) (col : List (Image h w)) :
    Option (List (Image h w)) :=
  col.mapM f

/-- The per-image closure of `S2CloudlessBuilder.add_cloud_bands`: select the
`probability` band of the saved `s2cloudless` companion, threshold it
strictly, and append both as `probability` and `clouds`. -/
def add_cloud_bands_wrapper (cld_prb_thresh : ℚ) (img : Image h w) :
    Option (Image h w) :=
  match img.s2cloudless with
  | none => none
  | some comp =>
    match lookupBand comp ("probability") with
    | none => none
    | some cld_prb =>
      some (img.addBands
        [(("probability"), cld_prb), (("clouds"), cld_prb.gt cld_prb_thresh)])

/-- The per-image closure of `S2CloudlessBuilder.add_shadow_bands`. The
raster engine's `directionalDistanceTransform` is the explicit parameter
`ddt` (clouds band, azimuth, maximum distance ↦ the `distance` band); the
intermediate `reproject` is the identity at the embedding's fixed grid. -/
def add_shadow_bands_wrapper
    (ddt : BandData h w → ℚ → ℚ → BandData h w)
    (nir_drk_thresh cld_prj_dist : ℚ) (img : Image h w) :
    Option (Image h w) :=
  match lookupBand img.bands ("SCL"), lookupBand img.bands ("B8"),
      lookupBand img.bands ("clouds") with
  | some scl, some b8, some clouds =>
    let not_water := scl.neq 6
    let dark_pixels := (b8.lt (nir_drk_thresh * 10000)).multiply not_water
    let shadow_azimuth := 90 - img.meanSolarAzimuth
    let cld_proj := (ddt clouds shadow_azimuth (cld_prj_dist * 10)).mask
    let shadows := cld_proj.multiply dark_pixels
    some (img.addBands
      [(("dark_pixels"), dark_pixels), (("cloud_transform"), cld_proj),
       (("shadows"), shadows)])
  | _, _, _ => none

/-- The final `cloudmask` band of `S2CloudlessBuilder.add_cld_shdw_mask`:
union of `clouds` and `shadows` by sum-then-threshold, then `focalMin(2)`
followed by `focalMax(buffer*2/20)` (the `reproject` that follows is the
identity at the embedding's fixed grid). -/
def cld_shdw_mask_band (buffer : ℚ) (clouds shadows : BandData h w) :
    BandData h w :=
  focalMax (buffer * 2 / 20) (focalMin 2 ((clouds.add shadows).gt 0))

/-- The per-image closure of `S2CloudlessBuilder.add_cld_shdw_mask`. -/
def add_cld_shdw_mask_wrapper (buffer : ℚ) (img : Image h w) :
    Option (Image h w) :=
  match lookupBand img.bands ("clouds"), lookupBand img.bands ("shadows") with
  | some clouds, some shadows =>
    some (img.addBands [(("cloudmask"), cld_shdw_mask_band buffer clouds shadows)])
  | _, _ => none

/-- The per-image closure of `S2CloudlessBuilder.apply_cld_shdw_mask`:
invert `cloudmask`, keep only the bands matching `B.*`, and update their
validity masks with the inverted band. -/
def apply_cld_shdw_mask_wrapper (img : Image h w) : Option (Image h w) :=
  match lookupBand img.bands ("cloudmask") with
  | none => none
  | some cm =>
    let not_cld_shdw := cm.bNot
    some { img with
      bands := (img.bands.filter (fun nb => bandPatternB nb.1)).map
        (fun nb => (nb.1, nb.2.updateMask not_cld_shdw)) }

/-- The Python call `self._builder.add_cloud_bands(cloud_prob_thresh=...)`
as keyword dispatch: `add_cloud_bands` has the single keyword parameter
`cld_prb_thresh`, so a call with any other keyword raises `TypeError`
before the stage body runs on any image. -/
def add_cloud_bands_kwcall (kw : String) (v : ℚ) (col : List (Image h w)) :
    Except PyError (List (Image h w)) :=
  if kw = "cld_prb_thresh" then
    exceptOfOption (stageMap (add_cloud_bands_wrapper v) col)
  else
    Except.error (PyError.typeError
      ("add_cloud_bands() got an unexpected keyword argument " ++ kw))

/-- `S2CloudlessDirector.build`: chains the four stages over the builder's
collection. The source passes `cld_prb_thresh` under the keyword
`cloud_prob_thresh`, and calls `add_shadow_bands()` and
`add_cld_shdw_mask()` with no arguments, so those run on their own defaults
(0.15, 2 and 100) while the director's `nir_drk_thresh`, `cld_prj_dist` and
`buffer` parameters are never used. The result is the builder's final
collection (the state `build_s2_cloudless` reads back). -/
def director_build (ddt : BandData h w → ℚ → ℚ → BandData h w)
    (col : List (Image h w))
    (cld_prb_thresh nir_drk_thresh cld_prj_dist buffer : ℚ) :
    Except PyError (List (Image h w)) := do
  let c1 ← add_cloud_bands_kwcall "cloud_prob_thresh" cld_prb_thresh col
  let c2 ← exceptOfOption (stageMap (add_shadow_bands_wrapper ddt 0.15 2) c1)
  let c3 ← exceptOfOption (stageMap (add_cld_shdw_mask_wrapper 100) c2)
  let c4 ← exceptOfOption (stageMap apply_cld_shdw_mask_wrapper c3)
  return c4

/-- `build_s2_cloudless` from the scene filter onward. The catalog steps
(`filterBounds`, `filterDate`) belong to the external catalog collaborator
and are modelled by taking the two already-located collections as inputs;
the `CLOUDY_PIXEL_PERCENTAGE < cloud_filter` scene filter on the
reflectance collection is kept. The joined collection is handed to the
director; the function's result is the builder's collection, or the
exception the director raised. -/
def build_s2_cloudless (ddt : BandData h w → ℚ → ℚ → BandData h w)
    (s2_sr s2_cld_prb : List (Image h w))
    (cloud_filter cld_prb_thresh nir_drk_thresh cld_prj_dst buffer : ℚ) :
    Except PyError (List (Image h w)) :=
  let s2_sr_f := s2_sr.filter
    (fun im => decide (im.cloudyPixelPercentage < cloud_filter))
  let s2_cld_col := saveFirst s2_sr_f s2_cld_prb
  director_build ddt s2_cld_col cld_prb_thresh nir_drk_thresh cld_prj_dst buffer

/-! Concrete fixtures used by witnesses and counterexamples. -/

/-- A 1×1 all-zero, all-valid band. -/
def oneBand : BandData 1 1 := ⟨fun _ _ => 0, fun _ _ => true⟩

/-- A trivial stand-in for the raster engine's directional distance
transform on 1×1 fixtures. -/
def ddt0 : BandData 1 1 → ℚ → ℚ → BandData 1 1 := fun b _ _ => b

/-- A concrete reflectance image (index `A`). -/
def imgSR : Image 1 1 :=
  { index := "A", meanSolarAzimuth := 133, cloudyPixelPercentage := 10,
    bands := [(("B8"), oneBand), (("SCL"), oneBand)], s2cloudless := none }

/-- A concrete cloud-probability companion image (index `A`). -/
def imgPrb : Image 1 1 :=
  { index := "A", meanSolarAzimuth := 133, cloudyPixelPercentage := 0,
    bands := [(("probability"), oneBand)], s2cloudless := none }

/-- The concrete reflectance image joined with its companion. -/
def imgJoined : Image 1 1 := { imgSR with s2cloudless := some imgPrb.bands }

/-- C2: for every builder collection and every threshold (and every choice
of the remaining parameters), `S2CloudlessDirector.build` raises the
`TypeError` caused by passing `add_cloud_bands` the unknown keyword
`cloud_prob_thresh` (its only parameter is `cld_prb_thresh`), before any
stage is applied to any image; consequently `build_s2_cloudless` never
returns normally either. -/
theorem director_build_raises_typeerror :
    (∀ (ddt : BandData h w → ℚ → ℚ → BandData h w) col t n d b,
      director_build ddt col t n d b =
        Except.error (PyError.typeError
          ("add_cloud_bands() got an unexpected keyword argument cloud_prob_thresh")))
    ∧ (∀ (ddt : BandData h w → ℚ → ℚ → BandData h w) sr prb cf t n d b,
      build_s2_cloudless ddt sr prb cf t n d b =
        Except.error (PyError.typeError
          ("add_cloud_bands() got an unexpected keyword argument cloud_prob_thresh"))) :=
  ⟨fun _ _ _ _ _ _ => rfl, fun _ _ _ _ _ _ _ _ => rfl⟩

/-- C1 (failing run): on a concrete joined collection of one image, with
the director's default parameters, `S2CloudlessDirector.build` does not
apply the four stages and return a masked collection — it raises the
keyword-argument `TypeError`. -/
theorem director_build_fails_on_concrete_collection :
    director_build ddt0 [imgJoined] 50 0.15 1 50 =
      Except.error (PyError.typeError
        ("add_cloud_bands() got an unexpected keyword argument cloud_prob_thresh")) :=
  rfl

/-- C10: the values passed to `S2CloudlessDirector.build` for
`nir_drk_thresh`, `cld_prj_dist` and `buffer` never influence its
behaviour: the director calls `add_shadow_bands()` and
`add_cld_shdw_mask()` with no arguments (their own defaults 0.15, 2
and 100), so any two choices of those three parameters give identical
results. -/
theorem director_build_ignores_shadow_mask_params :
    ∀ (ddt : BandData h w → ℚ → ℚ → BandData h w) col t n₁ d₁ b₁ n₂ d₂ b₂,
      director_build ddt col t n₁ d₁ b₁ = director_build ddt col t n₂ d₂ b₂ :=
  fun _ _ _ _ _ _ _ _ _ => rfl

/-- C9 (counterexample): with `cld_prb_thresh = 150`, far outside the valid
range 0–100, a concrete run does not fail with the `InvalidParameter`
condition the claim requires — no validation exists, and the run fails
with the keyword-argument `TypeError` instead. -/
theorem build_s2_cloudless_no_invalid_parameter_check :
    build_s2_cloudless ddt0 [imgSR] [imgPrb] 60 150 0.15 2 100 =
      Except.error (PyError.typeError
        ("add_cloud_bands() got an unexpected keyword argument cloud_prob_thresh"))
    ∧ PyError.typeError
        ("add_cloud_bands() got an unexpected keyword argument cloud_prob_thresh")
      ≠ PyError.invalidParameter :=
  ⟨rfl, by decide⟩

/-- C9 (amended): `build_s2_cloudless` performs no configuration
validation: for every configuration, in range or not, no run ever fails
with the `InvalidParameter` condition (every run fails with the
keyword-argument `TypeError` regardless of the configuration values). -/
theorem build_s2_cloudless_never_invalid_parameter :
    ∀ (ddt : BandData h w → ℚ → ℚ → BandData h w) sr prb cf t n d b,
      build_s2_cloudless ddt sr prb cf t n d b ≠
        Except.error PyError.invalidParameter := by
  intro ddt sr prb cf t n d b hcontra
  have h1 : build_s2_cloudless ddt sr prb cf t n d b =
      Except.error (PyError.typeError
        ("add_cloud_bands() got an unexpected keyword argument cloud_prob_thresh")) := rfl
  rw [h1] at hcontra
  simp at hcontra

/-- Witness for C9 (amended) at a concrete run with an out-of-range
threshold. -/
theorem build_s2_cloudless_never_invalid_parameter_witness :
    build_s2_cloudless ddt0 [imgSR] [imgPrb] 60 150 0.15 2 100 ≠
      Except.error PyError.invalidParameter :=
  build_s2_cloudless_never_invalid_parameter ddt0 [imgSR] [imgPrb] 60 150 0.15 2 100

/-- The 4×4 probability band of the specification's example scenario,
everywhere valid. -/
def gridProb : BandData 4 4 :=
  ⟨fun i j =>
    (([[0, 0, 0, 0], [0, 70, 80, 0], [0, 90, 75, 0],
       [0, 0, 0, 0]] : List (List ℚ)).getD i.val []).getD j.val 0,
   fun _ _ => true⟩

/-- A concrete joined image whose companion carries the 4×4 example
probability band. -/
def testCloudImg : Image 4 4 :=
  { index := "t0", meanSolarAzimuth := 0, cloudyPixelPercentage := 0,
    bands := [], s2cloudless := some [(("probability"), gridProb)] }

/-- C3: `add_cloud_bands` appends a `clouds` band equal to 1 exactly where
the companion probability band strictly exceeds the threshold and 0
elsewhere; probability equal to the threshold is not flagged; on the 4×4
example band, threshold 60 flags exactly the four interior cells and
threshold 85 flags only the cell valued 90. -/
theorem add_cloud_bands_spec (img : Image h w) (t : ℚ)
    (comp : List (String × BandData h w)) (p : BandData h w)
    (hc : img.s2cloudless = some comp)
    (hp : lookupBand comp ("probability") = some p) :
    add_cloud_bands_wrapper t img =
      some (img.addBands [(("probability"), p), (("clouds"), p.gt t)])
    ∧ (∀ i j, ((p.gt t).value i j = 1 ↔ t < p.value i j)
        ∧ (p.value i j = t → (p.gt t).value i j = 0))
    ∧ (∀ i j : Fin 4, (gridProb.gt 60).value i j = 1 ↔
        ((i.val = 1 ∨ i.val = 2) ∧ (j.val = 1 ∨ j.val = 2)))
    ∧ (∀ i j : Fin 4, (gridProb.gt 85).value i j = 1 ↔
        (i.val = 2 ∧ j.val = 1)) := by
  refine ⟨?_, ?_, by decide, by decide⟩
  · unfold add_cloud_bands_wrapper
    rw [hc]
    dsimp only
    rw [hp]
  · intro i j
    refine ⟨?_, ?_⟩
    · simp only [BandData.gt]
      split_ifs with hlt
      · simp [hlt]
      · simp [hlt]
    · intro he
      simp [BandData.gt, he]

/-- Witness for C3 at the example scenario: the wrapper succeeds on a
concrete joined image and appends the thresholded band. -/
theorem add_cloud_bands_spec_witness :
    add_cloud_bands_wrapper 60 testCloudImg =
      some (testCloudImg.addBands
        [(("probability"), gridProb), (("clouds"), gridProb.gt 60)]) :=
  (add_cloud_bands_spec testCloudImg 60 [(("probability"), gridProb)] gridProb
    rfl rfl).1

/-- A concrete pre-joined image carrying `SCL`, `B8` and `clouds` bands. -/
def imgShadowTest : Image 1 1 :=
  { index := "t1", meanSolarAzimuth := 133, cloudyPixelPercentage := 0,
    bands := [(("SCL"), oneBand), (("B8"), oneBand), (("clouds"), oneBand)],
    s2cloudless := none }

/-- C5: `add_shadow_bands` computes `dark_pixels` as (near-infrared `B8`
value < `nir_drk_thresh` × 10000) AND (`SCL` value ≠ 6), computes the
shadow azimuth as 90 − the image's mean solar azimuth angle, takes
`cloud_transform` as the boolean mask of the directional distance
transform of `clouds` along that azimuth out to `cld_prj_dist` × 10
units, and sets `shadows` = `cloud_transform` AND `dark_pixels`. -/
theorem add_shadow_bands_spec (ddt : BandData h w → ℚ → ℚ → BandData h w)
    (nir_drk_thresh cld_prj_dist : ℚ) (img : Image h w)
    (scl b8 clouds : BandData h w)
    (hscl : lookupBand img.bands ("SCL") = some scl)
    (hb8 : lookupBand img.bands ("B8") = some b8)
    (hcld : lookupBand img.bands ("clouds") = some clouds) :
    add_shadow_bands_wrapper ddt nir_drk_thresh cld_prj_dist img =
      some (img.addBands
        [(("dark_pixels"), (b8.lt (nir_drk_thresh * 10000)).multiply (scl.neq 6)),
         (("cloud_transform"),
           (ddt clouds (90 - img.meanSolarAzimuth) (cld_prj_dist * 10)).mask),
         (("shadows"),
           ((ddt clouds (90 - img.meanSolarAzimuth) (cld_prj_dist * 10)).mask).multiply
             ((b8.lt (nir_drk_thresh * 10000)).multiply (scl.neq 6)))])
    ∧ (∀ i j, ((b8.lt (nir_drk_thresh * 10000)).multiply (scl.neq 6)).value i j = 1 ↔
        (b8.value i j < nir_drk_thresh * 10000 ∧ scl.value i j ≠ 6))
    ∧ (∀ i j,
        (((ddt clouds (90 - img.meanSolarAzimuth) (cld_prj_dist * 10)).mask).multiply
            ((b8.lt (nir_drk_thresh * 10000)).multiply (scl.neq 6))).value i j = 1 ↔
        (((ddt clouds (90 - img.meanSolarAzimuth) (cld_prj_dist * 10)).mask).value i j = 1
          ∧ ((b8.lt (nir_drk_thresh * 10000)).multiply (scl.neq 6)).value i j = 1)) := by
  refine ⟨?_, ?_, ?_⟩
  · unfold add_shadow_bands_wrapper
    rw [hscl, hb8, hcld]
  · intro i j
    simp only [BandData.multiply, BandData.lt, BandData.neq]
    split_ifs <;> simp_all
  · intro i j
    simp only [BandData.multiply, BandData.lt, BandData.neq, BandData.mask]
    split_ifs <;> simp

/-- Witness for C5: the wrapper succeeds on a concrete image with the
stage's default parameters and appends the three derived bands. -/
theorem add_shadow_bands_spec_witness :
    add_shadow_bands_wrapper ddt0 0.15 2 imgShadowTest =
      some (imgShadowTest.addBands
        [(("dark_pixels"), (oneBand.lt (0.15 * 10000)).multiply (oneBand.neq 6)),
         (("cloud_transform"),
           (ddt0 oneBand (90 - imgShadowTest.meanSolarAzimuth) (2 * 10)).mask),
         (("shadows"),
           ((ddt0 oneBand (90 - imgShadowTest.meanSolarAzimuth) (2 * 10)).mask).multiply
             ((oneBand.lt (0.15 * 10000)).multiply (oneBand.neq 6)))]) :=
  (add_shadow_bands_spec ddt0 0.15 2 imgShadowTest oneBand oneBand oneBand
    rfl rfl rfl).1

/-! Helper lemmas about the focal filters. -/

theorem gt_value_zero_or_one (b : BandData h w) (t : ℚ) (i : Fin h) (j : Fin w) :
    (b.gt t).value i j = 0 ∨ (b.gt t).value i j = 1 := by
  by_cases hlt : t < b.value i j <;> simp [BandData.gt, hlt]

theorem focalMin_value_mem (r : ℚ) (b : BandData h w) (i : Fin h) (j : Fin w) :
    ∃ q ∈ nbhd r (i, j), (focalMin r b).value i j = b.value q.1 q.2 := by
  have hmem := Finset.min'_mem ((nbhd r (i, j)).image (fun q => b.value q.1 q.2))
    (Finset.Nonempty.image ⟨(i, j), self_mem_nbhd r (i, j)⟩ _)
  rw [Finset.mem_image] at hmem
  obtain ⟨q, hq, heq⟩ := hmem
  exact ⟨q, hq, heq.symm⟩

theorem focalMax_value_mem (r : ℚ) (b : BandData h w) (i : Fin h) (j : Fin w) :
    ∃ q ∈ nbhd r (i, j), (focalMax r b).value i j = b.value q.1 q.2 := by
  have hmem := Finset.max'_mem ((nbhd r (i, j)).image (fun q => b.value q.1 q.2))
    (Finset.Nonempty.image ⟨(i, j), self_mem_nbhd r (i, j)⟩ _)
  rw [Finset.mem_image] at hmem
  obtain ⟨q, hq, heq⟩ := hmem
  exact ⟨q, hq, heq.symm⟩

theorem focalMin_binary (r : ℚ) (b : BandData h w)
    (hb : ∀ i j, b.value i j = 0 ∨ b.value i j = 1) (i : Fin h) (j : Fin w) :
    (focalMin r b).value i j = 0 ∨ (focalMin r b).value i j = 1 := by
  obtain ⟨q, _, heq⟩ := focalMin_value_mem r b i j
  rw [heq]
  exact hb q.1 q.2

theorem focalMax_binary (r : ℚ) (b : BandData h w)
    (hb : ∀ i j, b.value i j = 0 ∨ b.value i j = 1) (i : Fin h) (j : Fin w) :
    (focalMax r b).value i j = 0 ∨ (focalMax r b).value i j = 1 := by
  obtain ⟨q, _, heq⟩ := focalMax_value_mem r b i j
  rw [heq]
  exact hb q.1 q.2

theorem nbhd_mono (r₁ r₂ : ℚ) (h0 : 0 ≤ r₁) (hr : r₁ ≤ r₂) (p : Fin h × Fin w) :
    nbhd r₁ p ⊆ nbhd r₂ p := by
  intro q hq
  simp only [nbhd, Finset.mem_filter, Finset.mem_univ, true_and] at hq ⊢
  exact hq.trans (pow_le_pow_left₀ h0 hr 2)

theorem focalMax_radius_mono (r₁ r₂ : ℚ) (h0 : 0 ≤ r₁) (hr : r₁ ≤ r₂)
    (b : BandData h w) (i : Fin h) (j : Fin w) :
    (focalMax r₁ b).value i j ≤ (focalMax r₂ b).value i j := by
  have hsub : (nbhd r₁ (i, j)).image (fun q => b.value q.1 q.2) ⊆
      (nbhd r₂ (i, j)).image (fun q => b.value q.1 q.2) :=
    Finset.image_subset_image (nbhd_mono r₁ r₂ h0 hr (i, j))
  exact Finset.max'_subset
    (Finset.Nonempty.image ⟨(i, j), self_mem_nbhd r₁ (i, j)⟩ _) hsub

/-- A concrete pre-joined image carrying `clouds` and `shadows` bands. -/
def imgMaskTest : Image 1 1 :=
  { index := "t2", meanSolarAzimuth := 133, cloudyPixelPercentage := 0,
    bands := [(("clouds"), oneBand), (("shadows"), oneBand)],
    s2cloudless := none }

/-- C6: `add_cld_shdw_mask` combines the flags as (`clouds` + `shadows`)
> 0, applies the minimum filter of radius 2 strictly before the maximum
filter of radius `buffer` × 2 / 20, and appends the result as a binary
band named `cloudmask`. -/
theorem add_cld_shdw_mask_spec (buffer : ℚ) (img : Image h w)
    (clouds shadows : BandData h w)
    (hc : lookupBand img.bands ("clouds") = some clouds)
    (hs : lookupBand img.bands ("shadows") = some shadows) :
    add_cld_shdw_mask_wrapper buffer img =
      some (img.addBands [(("cloudmask"),
        focalMax (buffer * 2 / 20) (focalMin 2 ((clouds.add shadows).gt 0)))])
    ∧ (∀ i j, (cld_shdw_mask_band buffer clouds shadows).value i j = 0
        ∨ (cld_shdw_mask_band buffer clouds shadows).value i j = 1) := by
  refine ⟨?_, ?_⟩
  · unfold add_cld_shdw_mask_wrapper
    rw [hc, hs]
    rfl
  · intro i j
    exact focalMax_binary _ _
      (focalMin_binary _ _ (gt_value_zero_or_one ((clouds.add shadows)) 0)) i j

/-- Witness for C6: the wrapper succeeds on a concrete image with the
stage's default buffer and appends the opened-then-dilated mask band. -/
theorem add_cld_shdw_mask_spec_witness :
    add_cld_shdw_mask_wrapper 100 imgMaskTest =
      some (imgMaskTest.addBands [(("cloudmask"),
        focalMax (100 * 2 / 20) (focalMin 2 ((oneBand.add oneBand).gt 0)))]) :=
  (add_cld_shdw_mask_spec 100 imgMaskTest oneBand oneBand rfl rfl).1

/-- C8: for a fixed input image, the set of pixels flagged 1 in the
`cloudmask` band produced by `add_cld_shdw_mask` is monotone in `buffer`:
every pixel flagged with buffer `b₁` is also flagged with any buffer
`b₂ ≥ b₁`. -/
theorem cloudmask_buffer_monotone (b₁ b₂ : ℚ) (h0 : 0 ≤ b₁) (h12 : b₁ ≤ b₂)
    (img : Image h w) (clouds shadows : BandData h w)
    (hc : lookupBand img.bands ("clouds") = some clouds)
    (hs : lookupBand img.bands ("shadows") = some shadows) :
    add_cld_shdw_mask_wrapper b₁ img =
      some (img.addBands [(("cloudmask"), cld_shdw_mask_band b₁ clouds shadows)])
    ∧ ∀ i j, (cld_shdw_mask_band b₁ clouds shadows).value i j = 1 →
        (cld_shdw_mask_band b₂ clouds shadows).value i j = 1 := by
  refine ⟨?_, ?_⟩
  · unfold add_cld_shdw_mask_wrapper
    rw [hc, hs]
  intro i j hone
  have hr0 : 0 ≤ b₁ * 2 / 20 := by positivity
  have hrle : b₁ * 2 / 20 ≤ b₂ * 2 / 20 := by
    apply div_le_div_of_nonneg_right ?_ ?_ <;> [skip; norm_num]
    linarith
  have hle := focalMax_radius_mono (b₁ * 2 / 20) (b₂ * 2 / 20) hr0 hrle
    (focalMin 2 ((clouds.add shadows).gt 0)) i j
  have hbin := focalMax_binary (b₂ * 2 / 20) _
    (focalMin_binary 2 _ (gt_value_zero_or_one ((clouds.add shadows)) 0)) i j
  unfold cld_shdw_mask_band at hone ⊢
  rcases hbin with hzero | hone2
  · rw [hone] at hle
    rw [hzero] at hle
    linarith
  · exact hone2

/-- Witness for C8 at a concrete image and buffers 0 ≤ 100. -/
theorem cloudmask_buffer_monotone_witness :
    add_cld_shdw_mask_wrapper 0 imgMaskTest =
      some (imgMaskTest.addBands [(("cloudmask"), cld_shdw_mask_band 0 oneBand oneBand)])
    ∧ ∀ i j, (cld_shdw_mask_band 0 oneBand oneBand).value i j = 1 →
        (cld_shdw_mask_band 100 oneBand oneBand).value i j = 1 :=
  cloudmask_buffer_monotone 0 100 (by decide) (by decide) imgMaskTest
    oneBand oneBand rfl rfl

/-- A concrete image carrying two reflectance bands, a `cloudmask` band and
one other derived band. -/
def imgApplyTest : Image 1 1 :=
  { index := "t3", meanSolarAzimuth := 133, cloudyPixelPercentage := 0,
    bands := [(("B2"), oneBand), (("B8"), oneBand), (("clouds"), oneBand),
      (("cloudmask"), oneBand)],
    s2cloudless := none }

/-- C7: `apply_cld_shdw_mask` keeps only the bands matching `B.*`, so none
of the derived bands survives; the kept bands keep their values unchanged
and their pixels are invalidated (via the inverted `cloudmask` used as a
validity mask) exactly where `cloudmask` is 1. -/
theorem apply_cld_shdw_mask_spec (img : Image h w) (cm : BandData h w)
    (hcm : lookupBand img.bands ("cloudmask") = some cm) :
    ∃ img', apply_cld_shdw_mask_wrapper img = some img'
    ∧ img'.bands = (img.bands.filter (fun nb => bandPatternB nb.1)).map
        (fun nb => (nb.1, nb.2.updateMask cm.bNot))
    ∧ (∀ nb ∈ img'.bands, bandPatternB nb.1 = true)
    ∧ (∀ n ∈ [("probability"), ("clouds"), ("dark_pixels"),
        ("cloud_transform"), ("shadows"), ("cloudmask")],
        lookupBand img'.bands n = none)
    ∧ (∀ nb ∈ img'.bands, ∃ ob ∈ img.bands, nb.1 = ob.1
        ∧ nb.2.value = ob.2.value
        ∧ ∀ i j, cm.value i j = 1 → nb.2.valid i j = false) := by
  refine ⟨{ img with
      bands := (img.bands.filter (fun nb => bandPatternB nb.1)).map
        (fun nb => (nb.1, nb.2.updateMask cm.bNot)) }, ?_, rfl, ?_, ?_, ?_⟩
  · unfold apply_cld_shdw_mask_wrapper
    rw [hcm]
  · intro nb hnb
    simp only [List.mem_map] at hnb
    obtain ⟨ob, hob, rfl⟩ := hnb
    exact (List.mem_filter.mp hob).2
  · intro n hn
    have hB : ∀ nb ∈ (img.bands.filter (fun nb => bandPatternB nb.1)).map
        (fun nb => (nb.1, nb.2.updateMask cm.bNot)), bandPatternB nb.1 = true := by
      intro nb hnb
      simp only [List.mem_map] at hnb
      obtain ⟨ob, hob, rfl⟩ := hnb
      exact (List.mem_filter.mp hob).2
    have hnB : bandPatternB n = false := by
      simp only [List.mem_cons, List.not_mem_nil, or_false] at hn
      rcases hn with rfl | rfl | rfl | rfl | rfl | rfl <;> rfl
    unfold lookupBand
    rw [List.find?_eq_none.mpr ?_]
    · rfl
    · intro x hx
      simp only [beq_iff_eq]
      intro he
      have hBx := hB x hx
      rw [he, hnB] at hBx
      exact absurd hBx (by simp)
  · intro nb hnb
    simp only [List.mem_map] at hnb
    obtain ⟨ob, hob, rfl⟩ := hnb
    refine ⟨ob, (List.mem_filter.mp hob).1, rfl, rfl, ?_⟩
    intro i j hone
    simp [BandData.updateMask, BandData.bNot, hone]

/-- Witness for C7: on a concrete image only the two `B`-bands survive,
with their masks updated by the inverted `cloudmask`. -/
theorem apply_cld_shdw_mask_spec_witness :
    ∃ img', apply_cld_shdw_mask_wrapper imgApplyTest = some img'
    ∧ img'.bands = (imgApplyTest.bands.filter (fun nb => bandPatternB nb.1)).map
        (fun nb => (nb.1, nb.2.updateMask oneBand.bNot))
    ∧ (∀ nb ∈ img'.bands, bandPatternB nb.1 = true)
    ∧ (∀ n ∈ [("probability"), ("clouds"), ("dark_pixels"),
        ("cloud_transform"), ("shadows"), ("cloudmask")],
        lookupBand img'.bands n = none)
    ∧ (∀ nb ∈ img'.bands, ∃ ob ∈ imgApplyTest.bands, nb.1 = ob.1
        ∧ nb.2.value = ob.2.value
        ∧ ∀ i j, oneBand.value i j = 1 → nb.2.valid i j = false) :=
  apply_cld_shdw_mask_spec imgApplyTest oneBand rfl

/-! Helper lemmas about the join. -/

theorem find?_index_of_mem (sec : List (Image h w)) (i : String)
    (hmem : i ∈ sec.map Image.index) :
    ∃ s, sec.find? (fun x => x.index == i) = some s := by
  have hsome : (sec.find? (fun x => x.index == i)).isSome := by
    rw [List.find?_isSome]
    rcases List.mem_map.mp hmem with ⟨s, hs, rfl⟩
    exact ⟨s, hs, by simp⟩
  exact Option.isSome_iff_exists.mp hsome

theorem find?_index_of_not_mem (sec : List (Image h w)) (i : String)
    (hnot : i ∉ sec.map Image.index) :
    sec.find? (fun x => x.index == i) = none := by
  refine List.find?_eq_none.mpr ?_
  intro x hx
  simp only [beq_iff_eq]
  intro he
  exact hnot (List.mem_map.mpr ⟨x, hx, he⟩)

theorem saveFirst_cons (p : Image h w) (ps sec : List (Image h w)) :
    saveFirst (p :: ps) sec =
      (match sec.find? (fun s => s.index == p.index) with
       | none => saveFirst ps sec
       | some s => { p with s2cloudless := some s.bands } :: saveFirst ps sec) := by
  unfold saveFirst
  rw [List.filterMap_cons]
  cases sec.find? (fun s => s.index == p.index) <;> rfl

theorem saveFirst_filter_nil_of_not_mem (sec : List (Image h w)) (i : String) :
    ∀ prim : List (Image h w), i ∉ prim.map Image.index →
      (saveFirst prim sec).filter (fun jm => jm.index == i) = [] := by
  intro prim
  induction prim with
  | nil => intro _; rfl
  | cons p ps ih =>
    intro hnot
    simp only [List.map_cons, List.mem_cons] at hnot
    have hpi : p.index ≠ i := fun he => hnot (Or.inl he.symm)
    have hps : i ∉ ps.map Image.index := fun hm => hnot (Or.inr hm)
    cases hfind : sec.find? (fun s => s.index == p.index) with
    | none =>
      rw [saveFirst_cons, hfind]
      exact ih hps
    | some s =>
      rw [saveFirst_cons, hfind]
      dsimp only
      rw [List.filter_cons, if_neg (fun hbeq => hpi (eq_of_beq hbeq))]
      exact ih hps

theorem saveFirst_filter_nil_of_no_companion (sec : List (Image h w))
    (i : String) (hnotsec : i ∉ sec.map Image.index) :
    ∀ prim : List (Image h w),
      (saveFirst prim sec).filter (fun jm => jm.index == i) = [] := by
  intro prim
  induction prim with
  | nil => rfl
  | cons p ps ih =>
    cases hfind : sec.find? (fun s => s.index == p.index) with
    | none =>
      rw [saveFirst_cons, hfind]
      exact ih
    | some s =>
      have hpi : p.index ≠ i := by
        intro he
        have hs : s ∈ sec := List.mem_of_find?_eq_some hfind
        have hsi : s.index = p.index := by
          have hbeq := List.find?_some hfind
          simpa using hbeq
        exact hnotsec (List.mem_map.mpr ⟨s, hs, by rw [hsi, he]⟩)
      rw [saveFirst_cons, hfind]
      dsimp only
      rw [List.filter_cons, if_neg (fun hbeq => hpi (eq_of_beq hbeq))]
      exact ih

theorem saveFirst_filter_length_one (sec : List (Image h w)) (i : String)
    (hsec : i ∈ sec.map Image.index) :
    ∀ prim : List (Image h w), (prim.map Image.index).Nodup →
      i ∈ prim.map Image.index →
      ((saveFirst prim sec).filter (fun jm => jm.index == i)).length = 1 := by
  intro prim
  induction prim with
  | nil => intro _ hp; simp at hp
  | cons p ps ih =>
    intro hnd hp
    rw [List.map_cons, List.nodup_cons] at hnd
    by_cases hpi : p.index = i
    · obtain ⟨s, hfind⟩ := find?_index_of_mem sec i hsec
      have hfind2 : sec.find? (fun x => x.index == p.index) = some s := by
        rw [hpi]; exact hfind
      rw [saveFirst_cons, hfind2]
      dsimp only
      rw [List.filter_cons, if_pos (beq_iff_eq.mpr hpi)]
      rw [saveFirst_filter_nil_of_not_mem sec i ps (by rw [← hpi]; exact hnd.1)]
      rfl
    · have hps : i ∈ ps.map Image.index := by
        rw [List.map_cons, List.mem_cons] at hp
        rcases hp with he | hm
        · exact absurd he.symm hpi
        · exact hm
      cases hfind : sec.find? (fun s => s.index == p.index) with
      | none =>
        rw [saveFirst_cons, hfind]
        exact ih hnd.2 hps
      | some s =>
        rw [saveFirst_cons, hfind]
        dsimp only
        rw [List.filter_cons, if_neg (fun hbeq => hpi (eq_of_beq hbeq))]
        exact ih hnd.2 hps

/-- C4 (counterexample): a reflectance image with no probability companion
is silently dropped by the join — the join returns normally with an empty
collection and no `MissingCompanionImage` condition is raised (none exists
in the code). -/
theorem saveFirst_silent_drop :
    saveFirst [imgSR] ([] : List (Image 1 1)) = [] := rfl

/-- C4 (amended): when acquisition indices are unique in the reflectance
collection, every index present in both collections yields exactly one
combined image in the joined collection, while a reflectance image whose
index has no match in the probability collection is silently dropped (the
join is total and raises no condition). -/
theorem saveFirst_join_completeness (prim sec : List (Image h w))
    (hnodup : (prim.map Image.index).Nodup) (i : String) :
    (i ∈ prim.map Image.index → i ∈ sec.map Image.index →
      ((saveFirst prim sec).filter (fun jm => jm.index == i)).length = 1)
    ∧ (i ∉ sec.map Image.index →
      (saveFirst prim sec).filter (fun jm => jm.index == i) = []) :=
  ⟨fun hp hs => saveFirst_filter_length_one sec i hs prim hnodup hp,
   fun hns => saveFirst_filter_nil_of_no_companion sec i hns prim⟩

/-- Witness for C4 (amended) on concrete one-image collections: index `A`
is present in both and appears exactly once in the join; index `Z` has no
companion and yields nothing. -/
theorem saveFirst_join_completeness_witness :
    (("A") ∈ [imgSR].map Image.index → ("A") ∈ [imgPrb].map Image.index →
      ((saveFirst [imgSR] [imgPrb]).filter (fun jm => jm.index == "A")).length = 1)
    ∧ (("A") ∉ ([] : List (Image 1 1)).map Image.index →
      (saveFirst [imgSR] []).filter (fun jm => jm.index == "A") = []) :=
  ⟨(saveFirst_join_completeness [imgSR] [imgPrb] (List.nodup_singleton _) ("A")).1,
   (saveFirst_join_completeness [imgSR] ([] : List (Image 1 1)) (List.nodup_singleton _) ("A")).2⟩

end S2Cloudless
